import Mathlib

/-!
Shallow embedding of the core of `node-simple-socket` (src/index.ts and
src/helpers.ts): the compression stage (`tryCompress`), the cipher stage
(AES-256-CTR used as a key-dependent XOR keystream), the datagram layer
(`SimpleSocket.write` / `SimpleSocket.read`), the lazy handshake trigger
(`makeHandshakeIfNeeded`) and the chunk handling of the stream layer
(`readStream` / `writeStream`).

Byte buffers are lists of naturals (`Bytes`), a JavaScript `null`/`undefined`
buffer is `Option.none`, a rejected promise is `Except.error` carrying the
error's message string.  External collaborators that are not part of this
repository (zlib's gzip/gunzip, Node's crypto keystream and sha256) are
parameters collected in `Env`; the AES-256-CTR stream produced by
`Crypto.createCipher`/`createDecipher` is modelled as the XOR of the data
with a password-dependent keystream, which is exactly the structure of CTR
mode (encrypt and decrypt use the same keystream, the output has the length
of the input).
-/

abbrev Bytes := List Nat

/-- helpers.ts `toBooleanSafe`: `null`/`undefined` gives the default,
any other boolean gives itself. -/
def toBooleanSafe (val : Option Bool) (defaultValue : Bool) : Bool :=
  match val with
  | none => defaultValue
  | some b => b

/-- Node `Buffer.writeUInt32LE`: the four little-endian bytes of `n`. -/
def writeUInt32LE (n : Nat) : Bytes :=
  [n % 256, n / 256 % 256, n / 65536 % 256, n / 16777216 % 256]

/-- Node `Buffer.readUInt32LE(0)`: decode the first four bytes (little
endian); `none` models the `RangeError` thrown on a buffer shorter than
four bytes. -/
def readUInt32LE? (b : Bytes) : Option Nat :=
  match b with
  | b0 :: b1 :: b2 :: b3 :: _ => some (b0 + b1 * 256 + b2 * 65536 + b3 * 16777216)
  | _ => none

/-- helpers.ts `readSocket(socket, n)`: suspend until `n` bytes are
available, then hand them over; `none` models the still-blocked state. -/
def readSocket (input : Bytes) (n : Nat) : Option (Bytes × Bytes) :=
  if n ≤ input.length then some (input.take n, input.drop n) else none

/-- CTR-mode stream cipher core: XOR each byte with the keystream byte at
its absolute position.  `Crypto.createCipher`/`createDecipher` with
`'aes-256-ctr'` both produce this same keystream from the password, so
encryption and decryption are the same XOR. -/
def ctrStream (ks : Nat → Nat) : Nat → Bytes → Bytes
  | _, [] => []
  | i, b :: rest => (b ^^^ ks i) :: ctrStream ks (i + 1) rest

/-- External collaborators of the core (not part of this repository):
zlib gzip/gunzip (fallible), the AES-256-CTR keystream derived from a
password by Node's `createCipher`, and sha256. -/
structure Env where
  gzip : Bytes → Except String Bytes
  gunzip : Bytes → Except String Bytes
  keystream : Bytes → Nat → Nat
  sha256 : Bytes → Bytes

/-- One run of `cipher.update(...)`/`cipher.final()` (or the decipher pair)
over `data`, keyed by the session password. -/
def cipherRun (env : Env) (pwd : Bytes) (data : Bytes) : Bytes :=
  ctrStream (env.keystream pwd) 0 data

/-- index.ts `DataTransformerDirection`. -/
inductive DataTransformerDirection where
  | Transform
  | Restore
deriving DecidableEq, Repr

/-- index.ts `DataTransformerContext` (the `data` may be a null buffer). -/
structure DataTransformerContext where
  data : Option Bytes
  direction : DataTransformerDirection

/-- index.ts `DataTransformer` (synchronous form; a promise-returning
transformer resolves to the same byte result). -/
def DataTransformer := DataTransformerContext → Option Bytes

/-- index.ts `toDataTransformerSave`: a missing transformer becomes the
identity on `ctx.data`. -/
def toDataTransformerSave (transformer : Option DataTransformer) : DataTransformer :=
  match transformer with
  | none => fun ctx => ctx.data
  | some f => f

/-- The message of the JavaScript `TypeError` raised by reading the
property `then` of `null`/`undefined`. -/
def jsNullError : String := "TypeError: Cannot read property of null"

/-- index.ts `asDataTransformerPromise`: run the (defaulted) transformer,
fall back to the input when it returned `null`, then probe the result for
a `then` property -- which throws a `TypeError` when the value in hand is
`null`/`undefined`. -/
def asDataTransformerPromise (transformer : Option DataTransformer)
    (direction : DataTransformerDirection) (data : Option Bytes) : Except String Bytes :=
  let tr := toDataTransformerSave transformer
  let transformerResult := tr { data := data, direction := direction }
  let transformerResult := match transformerResult with
    | none => data
    | some b => some b
  match transformerResult with
  | none => Except.error jsNullError
  | some b => Except.ok b

/-- index.ts `CompressionResult`. -/
structure CompressionResult where
  compressed : Option Bytes
  data : Bytes
  error : Option String
  isCompressed : Bool
  uncompressed : Bytes
deriving DecidableEq, Repr

/-- index.ts `SimpleSocket.tryCompress` on a non-null buffer (the caller,
`write`, has already short-circuited the null case): skip compression when
the `compress` flag is explicitly false, otherwise gzip; on a gzip error
record it and keep the uncompressed data; on success use the gzip output
when it is strictly smaller or when compression is forced. -/
def SimpleSocket.tryCompress (gzip : Bytes → Except String Bytes)
    (compress : Option Bool) (uncompressedData : Bytes) : CompressionResult :=
  let result : CompressionResult :=
    { compressed := none
      data := uncompressedData
      error := none
      isCompressed := false
      uncompressed := uncompressedData }
  if !(toBooleanSafe compress true) then
    result
  else
    match gzip uncompressedData with
    | Except.error e => { result with error := some e }
    | Except.ok compressedData =>
      if compressedData.length < uncompressedData.length ∨ toBooleanSafe compress false = true then
        { result with
            compressed := some compressedData
            data := compressedData
            isCompressed := true }
      else
        { result with compressed := some compressedData }

theorem ctrStream_length (ks : Nat → Nat) (i : Nat) (l : Bytes) :
    (ctrStream ks i l).length = l.length := by
  induction l generalizing i with
  | nil => rfl
  | cons b t ih => simp [ctrStream, ih]

theorem ctrStream_ctrStream (ks : Nat → Nat) (i : Nat) (l : Bytes) :
    ctrStream ks i (ctrStream ks i l) = l := by
  induction l generalizing i with
  | nil => rfl
  | cons b t ih =>
    simp only [ctrStream, ih]
    rw [Nat.xor_assoc, Nat.xor_self, Nat.xor_zero]

theorem cipherRun_length (env : Env) (pwd data : Bytes) :
    (cipherRun env pwd data).length = data.length :=
  ctrStream_length _ _ _

theorem cipherRun_cipherRun (env : Env) (pwd data : Bytes) :
    cipherRun env pwd (cipherRun env pwd data) = data :=
  ctrStream_ctrStream _ _ _

theorem readUInt32LE?_writeUInt32LE (n : Nat) (rest : Bytes) (h : n < 4294967296) :
    readUInt32LE? (writeUInt32LE n ++ rest) = some n := by
  simp only [writeUInt32LE, List.cons_append, List.nil_append, readUInt32LE?,
    Option.some.injEq]
  omega

theorem readSocket_exact (xs ys : Bytes) : readSocket (xs ++ ys) xs.length = some (xs, ys) := by
  unfold readSocket
  rw [if_pos (by simp)]
  simp

/-- C6: compression policy of `tryCompress` -- with the `compress` flag
absent, gzip output is used iff strictly smaller than the input; with
`compress = true` the gzip output is always used; with `compress = false`
nothing is compressed; and on a gzip failure the uncompressed input is
kept as the data with the gzip error recorded on the result. -/
theorem tryCompress_policy (gz gzBad : Bytes → Except String Bytes) (d c dBad : Bytes) (e : String)
    (hok : gz d = Except.ok c) (herr : gzBad dBad = Except.error e) :
    ((SimpleSocket.tryCompress gz none d).isCompressed = true ↔ c.length < d.length) ∧
    ((SimpleSocket.tryCompress gz none d).data = if c.length < d.length then c else d) ∧
    ((SimpleSocket.tryCompress gz (some true) d).isCompressed = true ∧
     (SimpleSocket.tryCompress gz (some true) d).data = c) ∧
    ((SimpleSocket.tryCompress gz (some false) d).isCompressed = false ∧
     (SimpleSocket.tryCompress gz (some false) d).data = d) ∧
    ((SimpleSocket.tryCompress gzBad none dBad).isCompressed = false ∧
     (SimpleSocket.tryCompress gzBad none dBad).data = dBad ∧
     (SimpleSocket.tryCompress gzBad none dBad).error = some e) ∧
    ((SimpleSocket.tryCompress gzBad (some true) dBad).isCompressed = false ∧
     (SimpleSocket.tryCompress gzBad (some true) dBad).data = dBad ∧
     (SimpleSocket.tryCompress gzBad (some true) dBad).error = some e) := by
  unfold SimpleSocket.tryCompress
  rw [hok, herr]
  refine ⟨?_, ?_, ?_, ?_, ?_, ?_⟩ <;>
    simp [toBooleanSafe] <;> split <;> simp_all

/-- Per-endpoint configuration fields of index.ts `SimpleSocket` used by
the datagram layer: `maxPackageSize`, the `compress` flag (absent by
default) and the optional `dataTransformer` hook. -/
structure SocketConfig where
  maxPackageSize : Nat
  compress : Option Bool
  dataTransformer : Option DataTransformer

/-- The flag byte built by `SimpleSocket.write`: the random value `n`
(clamped to 127 as in the source) plus 128 exactly when the payload is
compressed. -/
def flagByte (n : Nat) (isCompressed : Bool) : Nat :=
  (if 127 < n then 127 else n) + (if isCompressed then 128 else 0)

/-- index.ts `SimpleSocket.write`, after the handshake has established the
session password `pwd` (`makeHandshakeIfNeeded` then resolves with the
stored password; its state machine is modelled separately below).  `n` is
the value of `Math.floor(Math.random() * 128)` drawn for this datagram.
The first component is the byte sequence written to the underlying socket
(empty when nothing is sent), the second is the promise outcome: `ok none`
is a resolution with `null` (nothing to send, or package too large),
`ok (some b)` a resolution with the transformed input buffer, and
`error e` a rejection. -/
def SimpleSocket.write (env : Env) (cfg : SocketConfig) (pwd : Bytes) (n : Nat)
    (data : Option Bytes) : Bytes × Except String (Option Bytes) :=
  match asDataTransformerPromise cfg.dataTransformer DataTransformerDirection.Transform data with
  | Except.error e => ([], Except.error e)
  | Except.ok uncryptedData =>
    let result := SimpleSocket.tryCompress env.gzip cfg.compress uncryptedData
    let isCompressed := flagByte n result.isCompressed
    let cryptedData := cipherRun env pwd (isCompressed :: result.data)
    if cryptedData.length > cfg.maxPackageSize then
      ([], Except.ok none)
    else
      let dataLength := writeUInt32LE cryptedData.length
      (dataLength ++ cryptedData, Except.ok (some uncryptedData))

/-- Outcome of index.ts `SimpleSocket.read`: a resolved buffer together
with the unconsumed remainder of the inbound stream, a `null` resolution
(size-limit signal), a rejection, or still blocked waiting for input
bytes. -/
inductive ReadOutcome where
  | ok (data : Bytes) (rest : Bytes)
  | nullResult (rest : Bytes)
  | err (msg : String) (rest : Bytes)
  | blocked
deriving DecidableEq, Repr

/-- Whether a `read` outcome is a rejection. -/
def ReadOutcome.isErr : ReadOutcome → Bool
  | .err _ _ => true
  | _ => false

/-- The post-decryption phase of `SimpleSocket.read`: byte 0 of the
decrypted data is the flag byte (values above 127 mean gzip-compressed),
the remainder is the payload, gunzipped when flagged and then passed to
the data transformer in `Restore` direction. -/
def processUncrypted (env : Env) (transformer : Option DataTransformer)
    (uncryptedData rest : Bytes) : ReadOutcome :=
  match uncryptedData with
  | [] => ReadOutcome.err "RangeError: Index out of range" rest
  | flag :: compressedData =>
    if 127 < flag then
      match env.gunzip compressedData with
      | Except.error e => ReadOutcome.err e rest
      | Except.ok uncompressedData =>
        match asDataTransformerPromise transformer DataTransformerDirection.Restore
            (some uncompressedData) with
        | Except.error e => ReadOutcome.err e rest
        | Except.ok untransformedData => ReadOutcome.ok untransformedData rest
    else
      match asDataTransformerPromise transformer DataTransformerDirection.Restore
          (some compressedData) with
      | Except.error e => ReadOutcome.err e rest
      | Except.ok untransformedData => ReadOutcome.ok untransformedData rest

/-- index.ts `SimpleSocket.read`, after the handshake has established the
session password `pwd`: read the 4-byte little-endian length, resolve with
`null` when it exceeds `maxPackageSize` (the connection stays open), with
an empty buffer when it is zero, and otherwise read and decrypt that many
bytes and process flag byte, decompression and transformer. -/
def SimpleSocket.read (env : Env) (cfg : SocketConfig) (pwd : Bytes) (input : Bytes) :
    ReadOutcome :=
  match readSocket input 4 with
  | none => ReadOutcome.blocked
  | some (buff, rest1) =>
    match readUInt32LE? buff with
    | none => ReadOutcome.err "RangeError: Index out of range" rest1
    | some dataLength =>
      if dataLength ≤ cfg.maxPackageSize then
        if dataLength < 1 then
          ReadOutcome.ok [] rest1
        else
          match readSocket rest1 dataLength with
          | none => ReadOutcome.blocked
          | some (cryptedData, rest2) =>
            processUncrypted env cfg.dataTransformer (cipherRun env pwd cryptedData) rest2
      else
        ReadOutcome.nullResult rest1

/-- Witness for C6 at a concrete shrinking gzip and a concrete failing
gzip. -/
theorem tryCompress_policy_witness :
    ((SimpleSocket.tryCompress (fun _ => Except.ok [9]) none [1, 2]).isCompressed = true ↔
      ([9] : Bytes).length < ([1, 2] : Bytes).length) ∧
    ((SimpleSocket.tryCompress (fun _ => Except.ok [9]) none [1, 2]).data =
      if ([9] : Bytes).length < ([1, 2] : Bytes).length then [9] else [1, 2]) ∧
    ((SimpleSocket.tryCompress (fun _ => Except.ok [9]) (some true) [1, 2]).isCompressed = true ∧
     (SimpleSocket.tryCompress (fun _ => Except.ok [9]) (some true) [1, 2]).data = [9]) ∧
    ((SimpleSocket.tryCompress (fun _ => Except.ok [9]) (some false) [1, 2]).isCompressed = false ∧
     (SimpleSocket.tryCompress (fun _ => Except.ok [9]) (some false) [1, 2]).data = [1, 2]) ∧
    ((SimpleSocket.tryCompress (fun _ => Except.error "boom") none [3]).isCompressed = false ∧
     (SimpleSocket.tryCompress (fun _ => Except.error "boom") none [3]).data = [3] ∧
     (SimpleSocket.tryCompress (fun _ => Except.error "boom") none [3]).error = some "boom") ∧
    ((SimpleSocket.tryCompress (fun _ => Except.error "boom") (some true) [3]).isCompressed = false ∧
     (SimpleSocket.tryCompress (fun _ => Except.error "boom") (some true) [3]).data = [3] ∧
     (SimpleSocket.tryCompress (fun _ => Except.error "boom") (some true) [3]).error = some "boom") :=
  tryCompress_policy (fun _ => Except.ok [9]) (fun _ => Except.error "boom")
    [1, 2] [9] [3] "boom" rfl rfl

theorem asDataTransformerPromise_none (dir : DataTransformerDirection) (b : Bytes) :
    asDataTransformerPromise none dir (some b) = Except.ok b := rfl

theorem writeUInt32LE_length (n : Nat) : (writeUInt32LE n).length = 4 := rfl

theorem readSocket_w32 (n : Nat) (t : Bytes) :
    readSocket (writeUInt32LE n ++ t) 4 = some (writeUInt32LE n, t) := by
  have h := readSocket_exact (writeUInt32LE n) t
  rwa [writeUInt32LE_length] at h

theorem flagByte_gt_iff (n : Nat) (c : Bool) : (127 < flagByte n c) ↔ c = true := by
  unfold flagByte
  cases c <;> (split <;> simp <;> omega)

theorem tryCompress_spec (gz : Bytes → Except String Bytes) (compress : Option Bool) (d : Bytes) :
    ((SimpleSocket.tryCompress gz compress d).isCompressed = false →
      (SimpleSocket.tryCompress gz compress d).data = d) ∧
    ((SimpleSocket.tryCompress gz compress d).isCompressed = true →
      gz d = Except.ok (SimpleSocket.tryCompress gz compress d).data) := by
  simp only [SimpleSocket.tryCompress]
  split
  · simp
  · split
    next heq => simp
    next compressedData heq =>
      split
      · simp [heq]
      · simp

theorem write_eq_of_fits (env : Env) (cfg : SocketConfig) (pwd : Bytes) (n : Nat) (B : Bytes)
    (ht : cfg.dataTransformer = none)
    (hfit : (SimpleSocket.tryCompress env.gzip cfg.compress B).data.length + 1 ≤
      cfg.maxPackageSize) :
    SimpleSocket.write env cfg pwd n (some B) =
      (writeUInt32LE ((SimpleSocket.tryCompress env.gzip cfg.compress B).data.length + 1) ++
        cipherRun env pwd
          (flagByte n (SimpleSocket.tryCompress env.gzip cfg.compress B).isCompressed ::
            (SimpleSocket.tryCompress env.gzip cfg.compress B).data),
        Except.ok (some B)) := by
  unfold SimpleSocket.write
  rw [ht, asDataTransformerPromise_none]
  simp only
  rw [cipherRun_length]
  simp only [List.length_cons]
  rw [if_neg (by omega)]

theorem readUInt32LE?_w32 (n : Nat) (h : n < 4294967296) :
    readUInt32LE? (writeUInt32LE n) = some n := by
  simp only [writeUInt32LE, readUInt32LE?, Option.some.injEq]
  omega

theorem read_frame (env : Env) (cfg : SocketConfig) (pwd : Bytes) (plain rest : Bytes)
    (hlen : plain.length ≤ cfg.maxPackageSize)
    (hne : 1 ≤ plain.length)
    (hmax : cfg.maxPackageSize < 4294967296) :
    SimpleSocket.read env cfg pwd (writeUInt32LE plain.length ++ cipherRun env pwd plain ++ rest) =
      processUncrypted env cfg.dataTransformer plain rest := by
  have hc : readSocket (cipherRun env pwd plain ++ rest) plain.length =
      some (cipherRun env pwd plain, rest) := by
    have h := readSocket_exact (cipherRun env pwd plain) rest
    rwa [cipherRun_length] at h
  unfold SimpleSocket.read
  rw [List.append_assoc]
  simp only [readSocket_w32, readUInt32LE?_w32 plain.length (by omega)]
  rw [if_pos hlen, if_neg (by omega)]
  simp only [hc, cipherRun_cipherRun]

theorem readUInt32LE?_length {l : Bytes} {L : Nat} (h : readUInt32LE? l = some L) :
    4 ≤ l.length := by
  unfold readUInt32LE? at h
  split at h
  next => simp
  next => simp at h

theorem read_oversized_core (env : Env) (cfg : SocketConfig) (pwd input : Bytes) (L : Nat)
    (hL : readUInt32LE? (input.take 4) = some L)
    (hbig : cfg.maxPackageSize < L) :
    SimpleSocket.read env cfg pwd input = ReadOutcome.nullResult (input.drop 4) := by
  have h4 : 4 ≤ input.length := by
    have h := readUInt32LE?_length hL
    simp only [List.length_take] at h
    omega
  unfold SimpleSocket.read readSocket
  rw [if_pos h4]
  simp only [hL]
  rw [if_neg (by omega)]

theorem read_empty_core (env : Env) (cfg : SocketConfig) (pwd input : Bytes)
    (hz : readUInt32LE? (input.take 4) = some 0) :
    SimpleSocket.read env cfg pwd input = ReadOutcome.ok [] (input.drop 4) := by
  have h4 : 4 ≤ input.length := by
    have h := readUInt32LE?_length hz
    simp only [List.length_take] at h
    omega
  unfold SimpleSocket.read readSocket
  rw [if_pos h4]
  simp only [hz]
  rw [if_pos (by omega), if_pos (by omega)]

/-- A concrete environment used in witnesses and counterexamples: gzip
always fails (so payloads travel uncompressed), gunzip prepends a zero
byte, the keystream adds the first password byte to the position. -/
def envW : Env where
  gzip := fun _ => Except.error "gzip unavailable"
  gunzip := fun b => Except.ok (0 :: b)
  keystream := fun pwd i => (pwd.headD 1 + i) % 256
  sha256 := fun b => [b.length % 256]

/-- A concrete configuration used in witnesses: identity hooks, default
compression flag, 100-byte package cap. -/
def cfgW : SocketConfig := { maxPackageSize := 100, compress := none, dataTransformer := none }

/-- Like `cfgW` but with a 10-byte package cap. -/
def cfgW2 : SocketConfig := { maxPackageSize := 10, compress := none, dataTransformer := none }

/-- C1: round trip of the datagram layer -- with identity transformer
hooks and a shared session password, whenever the encrypted frame of `B`
fits into `maxPackageSize`, `write B` resolves with `B` and the peer's
`read` of the emitted frame resolves with a buffer byte-for-byte equal to
`B` (hence of the same length), leaving later stream bytes untouched. -/
theorem write_read_roundtrip (env : Env) (cfg : SocketConfig) (pwd : Bytes) (n : Nat)
    (B rest : Bytes)
    (ht : cfg.dataTransformer = none)
    (hgz : ∀ c, env.gzip B = Except.ok c → env.gunzip c = Except.ok B)
    (hmax : cfg.maxPackageSize < 4294967296)
    (hfit : (SimpleSocket.tryCompress env.gzip cfg.compress B).data.length + 1 ≤
      cfg.maxPackageSize) :
    (SimpleSocket.write env cfg pwd n (some B)).2 = Except.ok (some B) ∧
    SimpleSocket.read env cfg pwd ((SimpleSocket.write env cfg pwd n (some B)).1 ++ rest) =
      ReadOutcome.ok B rest := by
  rw [write_eq_of_fits env cfg pwd n B ht hfit]
  dsimp only
  refine ⟨rfl, ?_⟩
  have h := read_frame env cfg pwd
    (flagByte n (SimpleSocket.tryCompress env.gzip cfg.compress B).isCompressed ::
      (SimpleSocket.tryCompress env.gzip cfg.compress B).data) rest
    (by simpa using hfit) (by simp) hmax
  simp only [List.length_cons] at h
  rw [h, ht]
  simp only [processUncrypted]
  cases hc : (SimpleSocket.tryCompress env.gzip cfg.compress B).isCompressed with
  | true =>
    rw [if_pos ((flagByte_gt_iff n true).mpr rfl)]
    have hgzd := (tryCompress_spec env.gzip cfg.compress B).2 hc
    simp [hgz _ hgzd, asDataTransformerPromise_none]
  | false =>
    rw [if_neg (by simp [flagByte_gt_iff])]
    simp [asDataTransformerPromise_none, (tryCompress_spec env.gzip cfg.compress B).1 hc]

/-- Witness for C1 at a concrete environment, password and buffer. -/
theorem write_read_roundtrip_witness :
    (SimpleSocket.write envW cfgW [5] 3 (some [10, 20])).2 = Except.ok (some [10, 20]) ∧
    SimpleSocket.read envW cfgW [5] ((SimpleSocket.write envW cfgW [5] 3 (some [10, 20])).1 ++ [9]) =
      ReadOutcome.ok [10, 20] [9] :=
  write_read_roundtrip envW cfgW [5] 3 [10, 20] [9] rfl (fun _ h => nomatch h)
    (by decide) (by decide)

/-- C5: an outbound datagram whose ciphertext exceeds `maxPackageSize` is
soft -- `write` sends nothing on the socket and resolves with null (it
does not reject), and the endpoint stays usable: a subsequent `write` of a
buffer whose ciphertext fits both sends a frame and resolves with the
buffer. -/
theorem write_too_large_soft (env : Env) (cfg : SocketConfig) (pwd : Bytes) (n n2 : Nat)
    (B B2 : Bytes)
    (ht : cfg.dataTransformer = none)
    (hbig : cfg.maxPackageSize < (SimpleSocket.tryCompress env.gzip cfg.compress B).data.length + 1)
    (hsmall : (SimpleSocket.tryCompress env.gzip cfg.compress B2).data.length + 1 ≤
      cfg.maxPackageSize) :
    SimpleSocket.write env cfg pwd n (some B) = ([], Except.ok none) ∧
    (SimpleSocket.write env cfg pwd n2 (some B2)).2 = Except.ok (some B2) ∧
    (SimpleSocket.write env cfg pwd n2 (some B2)).1 ≠ [] := by
  refine ⟨?_, ?_, ?_⟩
  · unfold SimpleSocket.write
    rw [ht, asDataTransformerPromise_none]
    simp only
    rw [cipherRun_length]
    simp only [List.length_cons]
    rw [if_pos (by omega)]
  · rw [write_eq_of_fits env cfg pwd n2 B2 ht hsmall]
  · rw [write_eq_of_fits env cfg pwd n2 B2 ht hsmall]
    simp [writeUInt32LE]

/-- Witness for C5: a 5-byte buffer overflows a 2-byte cap and is dropped
softly; a following 1-byte write still goes out. -/
theorem write_too_large_soft_witness :
    SimpleSocket.write envW cfgW2 [5] 0 (some [1, 2, 3, 4, 5, 6, 7, 8, 9, 10]) =
      ([], Except.ok none) ∧
    (SimpleSocket.write envW cfgW2 [5] 1 (some [7])).2 = Except.ok (some [7]) ∧
    (SimpleSocket.write envW cfgW2 [5] 1 (some [7])).1 ≠ [] :=
  write_too_large_soft envW cfgW2 [5] 0 1 [1, 2, 3, 4, 5, 6, 7, 8, 9, 10] [7] rfl
    (by decide) (by decide)

/-- C10: calling `write` with a null/undefined buffer on an endpoint with
no data transformer emits nothing on the socket and rejects -- the
transformer stage throws the `TypeError` of probing `null` for `then`. -/
theorem write_null_rejects (env : Env) (cfg : SocketConfig) (pwd : Bytes) (n : Nat)
    (ht : cfg.dataTransformer = none) :
    SimpleSocket.write env cfg pwd n none = ([], Except.error jsNullError) := by
  unfold SimpleSocket.write
  rw [ht]
  rfl

/-- Witness for C10 at a concrete environment and configuration. -/
theorem write_null_rejects_witness :
    SimpleSocket.write envW cfgW [1] 0 none = ([], Except.error jsNullError) :=
  write_null_rejects envW cfgW [1] 0 rfl

/-- C4: `read` resolves with null when the declared 4-byte length exceeds
`maxPackageSize`, consuming only the four length bytes (the rest of the
stream is left untouched), and resolves with an empty buffer when the
declared length is zero. -/
theorem read_size_limit_and_empty (env : Env) (cfg : SocketConfig) (pwd : Bytes)
    (input input2 : Bytes) (L : Nat)
    (hL : readUInt32LE? (input.take 4) = some L)
    (hbig : cfg.maxPackageSize < L)
    (hz : readUInt32LE? (input2.take 4) = some 0) :
    SimpleSocket.read env cfg pwd input = ReadOutcome.nullResult (input.drop 4) ∧
    SimpleSocket.read env cfg pwd input2 = ReadOutcome.ok [] (input2.drop 4) :=
  ⟨read_oversized_core env cfg pwd input L hL hbig, read_empty_core env cfg pwd input2 hz⟩

/-- Witness for C4: a declared length of 4294967295 against a 10-byte cap
gives null and leaves the fifth byte unread; a zero length gives an empty
buffer. -/
theorem read_size_limit_and_empty_witness :
    SimpleSocket.read envW cfgW2 [1] [255, 255, 255, 255, 9] = ReadOutcome.nullResult [9] ∧
    SimpleSocket.read envW cfgW2 [1] [0, 0, 0, 0, 7] = ReadOutcome.ok [] [7] :=
  read_size_limit_and_empty envW cfgW2 [1] [255, 255, 255, 255, 9] [0, 0, 0, 0, 7]
    4294967295 (by decide) (by decide) (by decide)

/-- C3 counterexample: on a declared length of 10 against a 5-byte cap,
`read` resolves with null -- it neither rejects (no "frame too large"
error reaches the caller) nor touches the underlying socket (the `read`
code path contains no close), contradicting the claim that an inbound
oversized frame is fatal. -/
theorem read_oversized_counterexample :
    SimpleSocket.read envW { maxPackageSize := 5, compress := none, dataTransformer := none }
      [1] [10, 0, 0, 0] = ReadOutcome.nullResult [] ∧
    (SimpleSocket.read envW { maxPackageSize := 5, compress := none, dataTransformer := none }
      [1] [10, 0, 0, 0]).isErr = false :=
  ⟨rfl, rfl⟩

/-- C3 amended: an inbound frame whose declared length exceeds
`maxPackageSize` is handled softly -- `read` resolves with null after the
four length bytes, surfaces no error and does not close the connection. -/
theorem read_oversized_soft (env : Env) (cfg : SocketConfig) (pwd input : Bytes) (L : Nat)
    (hL : readUInt32LE? (input.take 4) = some L)
    (hbig : cfg.maxPackageSize < L) :
    SimpleSocket.read env cfg pwd input = ReadOutcome.nullResult (input.drop 4) ∧
    (SimpleSocket.read env cfg pwd input).isErr = false := by
  have h := read_oversized_core env cfg pwd input L hL hbig
  exact ⟨h, by rw [h]; rfl⟩

/-- Witness for the amended C3 at a concrete oversized frame. -/
theorem read_oversized_soft_witness :
    SimpleSocket.read envW cfgW2 [1] [11, 0, 0, 0] = ReadOutcome.nullResult [] ∧
    (SimpleSocket.read envW cfgW2 [1] [11, 0, 0, 0]).isErr = false :=
  read_oversized_soft envW cfgW2 [1] [11, 0, 0, 0] 11 (by decide) (by decide)

/-- C7: the flag byte is the random value `n` (0..127) plus 128 exactly
when the payload is compressed, the flag is above 127 iff the compression
bit is set, and `read` gunzips the payload iff the decrypted flag byte is
above 127. -/
theorem flag_byte_compression (env : Env) (cfg : SocketConfig) (pwd : Bytes) (n : Nat) (c : Bool)
    (body u rest : Bytes)
    (hn : n ≤ 127)
    (ht : cfg.dataTransformer = none)
    (hg : env.gunzip body = Except.ok u)
    (hfit : body.length + 1 ≤ cfg.maxPackageSize)
    (hmax : cfg.maxPackageSize < 4294967296) :
    flagByte n c = n + (if c then 128 else 0) ∧
    ((127 < flagByte n c) ↔ c = true) ∧
    SimpleSocket.read env cfg pwd
        (writeUInt32LE (body.length + 1) ++ cipherRun env pwd (flagByte n c :: body) ++ rest) =
      ReadOutcome.ok (if c then u else body) rest := by
  refine ⟨by unfold flagByte; rw [if_neg (by omega)], flagByte_gt_iff n c, ?_⟩
  have h := read_frame env cfg pwd (flagByte n c :: body) rest (by simpa using hfit)
    (by simp) hmax
  simp only [List.length_cons] at h
  rw [h, ht]
  simp only [processUncrypted]
  cases c with
  | true =>
    rw [if_pos ((flagByte_gt_iff n true).mpr rfl)]
    simp [hg, asDataTransformerPromise_none]
  | false =>
    rw [if_neg (by simp [flagByte_gt_iff])]
    simp [asDataTransformerPromise_none]

/-- Witness for C7 with the compression bit set at a concrete frame. -/
theorem flag_byte_compression_witness :
    flagByte 5 true = 5 + (if true then 128 else 0) ∧
    ((127 < flagByte 5 true) ↔ true = true) ∧
    SimpleSocket.read envW cfgW [2]
        (writeUInt32LE (([3] : Bytes).length + 1) ++
          cipherRun envW [2] (flagByte 5 true :: [3]) ++ [8]) =
      ReadOutcome.ok (if true then [0, 3] else [3]) [8] :=
  flag_byte_compression envW cfgW [2] 5 true [3] [0, 3] [8] (by decide) rfl rfl
    (by decide) (by decide)

/-- Result of one `makeHandshakeIfNeeded` call: the `password` field after
the call, the promise outcome, and whether a handshake was actually run
(`makeServerHandshake`/`makeClientHandshake` invoked). -/
structure HandshakeStep where
  password : Option Bytes
  result : Except String Bytes
  ranHandshake : Bool
deriving Repr

/-- index.ts `SimpleSocket.makeHandshakeIfNeeded`: when a password is
already stored, resolve with it without any handshake; otherwise run the
role-appropriate handshake (`type` 1 = Server, 2 = Client; the outcome of
that one attempt is the corresponding `Except` argument), store the
resulting password on success, and reject -- leaving the password unset --
on failure or on an unknown socket type. -/
def SimpleSocket.makeHandshakeIfNeeded (type : Nat) (serverHs clientHs : Except String Bytes)
    (password : Option Bytes) : HandshakeStep :=
  match password with
  | some pwd => { password := some pwd, result := Except.ok pwd, ranHandshake := false }
  | none =>
    if type = 1 then
      match serverHs with
      | Except.ok pwd => { password := some pwd, result := Except.ok pwd, ranHandshake := true }
      | Except.error e => { password := none, result := Except.error e, ranHandshake := true }
    else if type = 2 then
      match clientHs with
      | Except.ok pwd => { password := some pwd, result := Except.ok pwd, ranHandshake := true }
      | Except.error e => { password := none, result := Except.error e, ranHandshake := true }
    else
      { password := none, result := Except.error ("Unknown socket type " ++ toString type),
        ranHandshake := false }

/-- The `password` field after `k` further datagram operations (each of
`read` and `write` begins with one `makeHandshakeIfNeeded` call). -/
def iterateHandshake (type : Nat) (serverHs clientHs : Except String Bytes) :
    Nat → Option Bytes → Option Bytes
  | 0, password => password
  | k + 1, password =>
    iterateHandshake type serverHs clientHs k
      (SimpleSocket.makeHandshakeIfNeeded type serverHs clientHs password).password

/-- C2: the password is unset until the first handshake completes and is
assigned exactly at that completion; once stored, any later
`makeHandshakeIfNeeded` (hence any later `read`/`write`) resolves with the
stored password, runs no handshake and leaves the field unchanged, however
many operations follow. -/
theorem password_invariant (type : Nat) (serverHs clientHs : Except String Bytes)
    (p pwd : Bytes) (k : Nat)
    (hrole : type = 1 ∨ type = 2)
    (hs : type = 1 → serverHs = Except.ok pwd)
    (hc : type = 2 → clientHs = Except.ok pwd) :
    SimpleSocket.makeHandshakeIfNeeded type serverHs clientHs (some p) =
      { password := some p, result := Except.ok p, ranHandshake := false } ∧
    SimpleSocket.makeHandshakeIfNeeded type serverHs clientHs none =
      { password := some pwd, result := Except.ok pwd, ranHandshake := true } ∧
    iterateHandshake type serverHs clientHs k (some p) = some p := by
  refine ⟨rfl, ?_, ?_⟩
  · rcases hrole with h1 | h2
    · subst h1
      rw [hs rfl]
      rfl
    · subst h2
      rw [hc rfl]
      rfl
  · induction k with
    | zero => rfl
    | succ k ih => simpa [iterateHandshake, SimpleSocket.makeHandshakeIfNeeded] using ih

/-- Witness for C2 on a client endpoint whose handshake yields `[9]`. -/
theorem password_invariant_witness :
    SimpleSocket.makeHandshakeIfNeeded 2 (Except.error "unused") (Except.ok [9]) (some [1]) =
      { password := some [1], result := Except.ok [1], ranHandshake := false } ∧
    SimpleSocket.makeHandshakeIfNeeded 2 (Except.error "unused") (Except.ok [9]) none =
      { password := some [9], result := Except.ok [9], ranHandshake := true } ∧
    iterateHandshake 2 (Except.error "unused") (Except.ok [9]) 5 (some [1]) = some [1] :=
  password_invariant 2 (Except.error "unused") (Except.ok [9]) [1] [9] 5 (Or.inr rfl)
    (fun h => absurd h (by decide)) (fun _ => rfl)

/-- C8 counterexample: after a failed client handshake the password is
still unset and the very next operation runs a handshake again -- which
can then succeed and store a password -- so a handshake failure is not
terminal and handshakes are retried. -/
theorem handshake_retried_counterexample :
    (SimpleSocket.makeHandshakeIfNeeded 2 (Except.error "x") (Except.error "x") none).password =
      none ∧
    (SimpleSocket.makeHandshakeIfNeeded 2 (Except.error "x") (Except.error "x")
      ((SimpleSocket.makeHandshakeIfNeeded 2 (Except.error "x") (Except.error "x")
        none).password)).ranHandshake = true ∧
    (SimpleSocket.makeHandshakeIfNeeded 2 (Except.error "x") (Except.ok [7])
      ((SimpleSocket.makeHandshakeIfNeeded 2 (Except.error "x") (Except.error "x")
        none).password)).password = some [7] :=
  ⟨rfl, rfl, rfl⟩

/-- C8 amended: a failed handshake rejects that operation and leaves the
password unset; there is no terminal Broken state -- the next `read` or
`write` on the endpoint runs the handshake again, and a succeeding retry
stores its password. -/
theorem handshake_retried (type : Nat) (e : String) (serverHs2 clientHs2 : Except String Bytes)
    (pwd : Bytes)
    (hrole : type = 1 ∨ type = 2)
    (hs : type = 1 → serverHs2 = Except.ok pwd)
    (hc : type = 2 → clientHs2 = Except.ok pwd) :
    (SimpleSocket.makeHandshakeIfNeeded type (Except.error e) (Except.error e) none).password =
      none ∧
    (SimpleSocket.makeHandshakeIfNeeded type (Except.error e) (Except.error e) none).result =
      Except.error e ∧
    (SimpleSocket.makeHandshakeIfNeeded type (Except.error e) (Except.error e) none).ranHandshake =
      true ∧
    (SimpleSocket.makeHandshakeIfNeeded type serverHs2 clientHs2 none).ranHandshake = true ∧
    (SimpleSocket.makeHandshakeIfNeeded type serverHs2 clientHs2 none).password = some pwd := by
  rcases hrole with h1 | h2
  · subst h1
    rw [hs rfl]
    exact ⟨rfl, rfl, rfl, rfl, rfl⟩
  · subst h2
    rw [hc rfl]
    exact ⟨rfl, rfl, rfl, rfl, rfl⟩

/-- Witness for the amended C8 on a client endpoint. -/
theorem handshake_retried_witness :
    (SimpleSocket.makeHandshakeIfNeeded 2 (Except.error "x") (Except.error "x") none).password =
      none ∧
    (SimpleSocket.makeHandshakeIfNeeded 2 (Except.error "x") (Except.error "x") none).result =
      Except.error "x" ∧
    (SimpleSocket.makeHandshakeIfNeeded 2 (Except.error "x") (Except.error "x") none).ranHandshake =
      true ∧
    (SimpleSocket.makeHandshakeIfNeeded 2 (Except.error "unused") (Except.ok [7])
      none).ranHandshake = true ∧
    (SimpleSocket.makeHandshakeIfNeeded 2 (Except.error "unused") (Except.ok [7]) none).password =
      some [7] :=
  handshake_retried 2 "x" (Except.error "unused") (Except.ok [7]) [7] (Or.inr rfl)
    (fun h => absurd h (by decide)) (fun _ => rfl)

/-- helpers.ts `toStringSafe` restricted to string-or-null values:
`null`/`undefined` becomes the empty string. -/
def toStringSafe (val : Option String) : String :=
  match val with
  | none => ""
  | some str => str

/-- JavaScript `String.prototype.trim`: strip leading and trailing
whitespace (modelled structurally over the character list). -/
def jsTrim (s : String) : String :=
  String.mk (((s.data.dropWhile Char.isWhitespace).reverse.dropWhile Char.isWhitespace).reverse)

/-- helpers.ts `isEmptyString`: the safe string representation is empty
after trimming. -/
def isEmptyString (val : Option String) : Bool :=
  decide (jsTrim (toStringSafe val) = "")

/-- JavaScript `Error.prototype.toString` on an `Error` whose message is
`msg`: the name `Error`, a colon and a space, then the message.  This is
what helpers.ts `toStringSafe` produces when `readStream`'s `sendAnswer`
stringifies the error it is about to transmit. -/
def errorToString (msg : String) : String := "Error: " ++ msg

/-- One lowercase hexadecimal digit. -/
def hexDigit (n : Nat) : Char :=
  if n < 10 then Char.ofNat (48 + n) else Char.ofNat (87 + n)

/-- Node `Buffer.toString('hex')`: two lowercase hex digits per byte. -/
def toHex (bs : Bytes) : String :=
  String.join (bs.map fun b => String.mk [hexDigit (b / 16 % 16), hexDigit (b % 16)])

/-- Node `source.copy(Buffer.alloc(destLen), 0, ...)`: copy what is
available of `src` into a fresh zero-filled buffer of length `destLen`. -/
def copyBytes (destLen : Nat) (src : Bytes) : Bytes :=
  src.take destLen ++ List.replicate (destLen - src.length) 0

/-- What `readStream`'s `nextChunk` does with one received chunk block:
finish (terminator chunk), send an error string back over the datagram
layer -- `wireMsg` is the transmitted string, `surfacedMsg` the message of
the error that `readStream` then rejects with -- or accept the chunk and
write it to the sink (followed by an empty-string ACK). -/
inductive ChunkAction where
  | finished
  | sendError (wireMsg : String) (surfacedMsg : String)
  | writeChunk (chunk : Bytes)
deriving DecidableEq, Repr

/-- index.ts `SimpleSocket.readStream`, handling of one chunk block:
parse the 4-byte chunk length (a short block throws a `RangeError`, caught
and sent back), finish on length 0, report oversized chunks, then split
off the 32-byte hash and the chunk body, recompute sha256 and compare;
on mismatch send back the stringified `Error` whose message is
`Invalid chunk hash: <hex of recomputed hash>`. -/
def readStreamStep (sha256 : Bytes → Bytes) (maxPackageSize : Nat) (chunkBlock : Bytes) :
    ChunkAction :=
  match readUInt32LE? chunkBlock with
  | none =>
    ChunkAction.sendError (errorToString "Index out of range") "Index out of range"
  | some chunkLength =>
    if chunkLength < 1 then
      ChunkAction.finished
    else if chunkLength > maxPackageSize then
      ChunkAction.sendError (errorToString "Chunk is too big!") "Chunk is too big!"
    else
      let hash := copyBytes 32 (chunkBlock.drop 4)
      let chunk := copyBytes chunkLength (chunkBlock.drop 36)
      let realHash := sha256 chunk
      if hash = realHash then
        ChunkAction.writeChunk chunk
      else
        ChunkAction.sendError (errorToString ("Invalid chunk hash: " ++ toHex realHash))
          ("Invalid chunk hash: " ++ toHex realHash)

/-- What `writeStream` does after datagram-reading the peer's response to
a non-terminator chunk. -/
inductive SenderAction where
  | nextChunk
  | abort (msg : String)
deriving DecidableEq, Repr

/-- index.ts `SimpleSocket.writeStream`, response handling: an empty (or
whitespace-only, or null) response string continues with the next chunk,
anything else aborts with `Remote error: ` followed by the response. -/
def writeStreamOnResponse (errMsg : Option String) : SenderAction :=
  if isEmptyString errMsg then
    SenderAction.nextChunk
  else
    SenderAction.abort ("Remote error: " ++ toStringSafe errMsg)

/-- The concrete sha256 stand-in used for the C9 instances. -/
def shaW : Bytes → Bytes := fun _ => [171]

/-- A concrete chunk block: declared chunk length 1, an all-zero 32-byte
hash field, body byte 5 -- whose recomputed hash under `shaW` is `[171]`,
hex `ab`. -/
def cbW : Bytes := [1, 0, 0, 0] ++ List.replicate 32 0 ++ [5]

/-- C9 counterexample: on a hash mismatch the string actually sent back on
the wire is the stringified `Error`, i.e. `Error: Invalid chunk hash: ab`,
not the claimed `Invalid chunk hash: ab`; moreover a whitespace-only
(hence non-empty) response string does not abort `writeStream` -- it
continues with the next chunk. -/
theorem chunk_hash_message_counterexample :
    readStreamStep shaW 10 cbW =
      ChunkAction.sendError "Error: Invalid chunk hash: ab" "Invalid chunk hash: ab" ∧
    "Error: Invalid chunk hash: ab" ≠ "Invalid chunk hash: ab" ∧
    writeStreamOnResponse (some " ") = SenderAction.nextChunk := by
  decide

/-- C9 amended: on a sha256 mismatch over a received chunk the receiver
sends back the stringified error `Error: Invalid chunk hash: <hex>` (hex
of the recomputed hash) and `readStream` surfaces the error whose message
is `Invalid chunk hash: <hex>`; and `writeStream` aborts with
`Remote error: ` followed by the response on any response string that is
non-empty after trimming. -/
theorem chunk_hash_mismatch (sha : Bytes → Bytes) (maxPackageSize : Nat)
    (chunkBlock : Bytes) (L : Nat) (response : String)
    (hL : readUInt32LE? chunkBlock = some L)
    (h1 : 1 ≤ L) (h2 : L ≤ maxPackageSize)
    (hm : copyBytes 32 (chunkBlock.drop 4) ≠ sha (copyBytes L (chunkBlock.drop 36)))
    (hr : jsTrim response ≠ "") :
    readStreamStep sha maxPackageSize chunkBlock =
      ChunkAction.sendError
        (errorToString ("Invalid chunk hash: " ++ toHex (sha (copyBytes L (chunkBlock.drop 36)))))
        ("Invalid chunk hash: " ++ toHex (sha (copyBytes L (chunkBlock.drop 36)))) ∧
    writeStreamOnResponse (some response) = SenderAction.abort ("Remote error: " ++ response) := by
  constructor
  · unfold readStreamStep
    rw [hL]
    simp only
    rw [if_neg (by omega), if_neg (by omega), if_neg hm]
  · unfold writeStreamOnResponse
    rw [if_neg (by simp [isEmptyString, toStringSafe, hr])]
    rfl

/-- Witness for the amended C9 at the concrete mismatching chunk block. -/
theorem chunk_hash_mismatch_witness :
    readStreamStep shaW 10 cbW =
      ChunkAction.sendError
        (errorToString ("Invalid chunk hash: " ++ toHex (shaW (copyBytes 1 (cbW.drop 36)))))
        ("Invalid chunk hash: " ++ toHex (shaW (copyBytes 1 (cbW.drop 36)))) ∧
    writeStreamOnResponse (some "x") = SenderAction.abort ("Remote error: " ++ "x") :=
  chunk_hash_mismatch shaW 10 cbW 1 "x" (by decide) (by decide) (by decide) (by decide) (by decide)
